import Mathlib

/-!
# Verification of the YouTube playlist analyzer scraping route

Shallow embedding of `src/app/api/scrape-playlist/route.ts` (the `POST`
handler and its in-page callbacks) and proofs of the specified properties.

JavaScript numbers are modelled as `Option ℚ`: `some q` is an ordinary
(finite) number value, `none` is `NaN` (which `parseInt`/`parseFloat`
return on no digits, and which propagates through arithmetic).  The
floating-point multiplications of the source are modelled exactly over ℚ;
every concrete value appearing in a theorem below is exactly representable
as a double, so the rational and IEEE computations agree there (and where
a rational result is a non-integer, the corresponding double is one too).
-/

namespace PlaylistAnalyzer

/-- A JavaScript number: `none` models `NaN`, `some q` a finite value.
(The source never produces infinities.) -/
abbrev JsNum := Option ℚ

instance (ε α : Type) [DecidableEq ε] [DecidableEq α] : DecidableEq (Except ε α) :=
  fun x y =>
  match x, y with
  | .ok a, .ok b =>
    decidable_of_iff (a = b) ⟨fun h => by rw [h], fun h => by injection h⟩
  | .error a, .error b =>
    decidable_of_iff (a = b) ⟨fun h => by rw [h], fun h => by injection h⟩
  | .ok _, .error _ => isFalse (fun h => Except.noConfusion h)
  | .error _, .ok _ => isFalse (fun h => Except.noConfusion h)

/-! ## The view-count regular expression

The source matches `viewsText.match(/^([\d,.]+[KMB]?)\s*views?$/i)` and
uses capture group 1.  The decomposition of a matching string is unique
(the character classes `[\d,.]`, `[KMB]`, `\s` and the letter `v` are
pairwise disjoint), so the backtracking regex engine is faithfully
modelled by the greedy scanner below. -/

/-- `[\d,.]` : a decimal digit, comma or period. -/
def isNumChar (c : Char) : Bool :=
  c.isDigit || c = ',' || c = '.'

/-- `[KMB]` under the `i` flag: a magnitude suffix letter, either case. -/
def isMagnitude (c : Char) : Bool :=
  c = 'K' || c = 'M' || c = 'B' || c = 'k' || c = 'm' || c = 'b'

/-- `\s` : JavaScript whitespace (the ASCII part; the inputs in scope
contain no exotic Unicode whitespace). -/
def isJsSpace (c : Char) : Bool :=
  c = ' ' || c = '\t' || c = '\n' || c = '\r' || c = '\x0b' || c = '\x0c'

/-- The literal `views?` under the `i` flag, anchored at the end:
the remaining characters spell `view` or `views`, case-insensitively. -/
def isViewsWord (l : List Char) : Bool :=
  let low := l.map Char.toLower
  low = "view".data || low = "views".data

/-- `viewsText.match(/^([\d,.]+[KMB]?)\s*views?$/i)` on a character list:
returns capture group 1 (`[\d,.]+[KMB]?`) when the whole string matches. -/
def viewsMatchList (l : List Char) : Option (List Char) :=
  let core := l.takeWhile isNumChar
  let rest := l.dropWhile isNumChar
  if core.isEmpty then none
  else
    match rest with
    | c :: r =>
      if isMagnitude c then
        if isViewsWord (r.dropWhile isJsSpace) then some (core ++ [c]) else none
      else
        if isViewsWord (rest.dropWhile isJsSpace) then some core else none
    | [] => none

/-- The regex match on a `String`: `none` models a `null` match result,
`some g` a match whose capture group 1 is `g`. -/
def viewsMatch (s : String) : Option String :=
  (viewsMatchList s.data).map List.asString

/-! ## JavaScript numeric parsing

`parseInt` / `parseFloat` as applied by the source.  Both are only ever
applied (after `toUpperCase().replace(/,/g,"")`) to strings made of
digits and periods, possibly ending in a magnitude letter, so the
sign/exponent/radix features of the full JS functions are dead code and
are not modelled. -/

/-- Digit run → natural value, most significant first. -/
def digitsToNat (l : List Char) : ℕ :=
  l.foldl (fun acc c => 10 * acc + (c.toNat - '0'.toNat)) 0

/-- `parseInt(s)` on the characters of `s`: parse a leading run of
decimal digits, ignore the rest; `NaN` when there is no leading digit. -/
def jsParseInt (l : List Char) : JsNum :=
  let ds := l.takeWhile Char.isDigit
  if ds.isEmpty then none else some (digitsToNat ds : ℚ)

/-- `parseFloat(s)` on the characters of `s`: parse a leading decimal
literal (digits, optional period, digits), ignore the rest; `NaN` when no
digit occurs in the leading literal. -/
def jsParseFloat (l : List Char) : JsNum :=
  let intPart := l.takeWhile Char.isDigit
  let rest := l.dropWhile Char.isDigit
  match rest with
  | '.' :: r =>
    let fracPart := r.takeWhile Char.isDigit
    if intPart.isEmpty && fracPart.isEmpty then none
    else some ((digitsToNat intPart : ℚ) +
      (digitsToNat fracPart : ℚ) / (10 : ℚ) ^ fracPart.length)
  | _ =>
    if intPart.isEmpty then none else some (digitsToNat intPart : ℚ)

/-- `x * n` on JS numbers: `NaN` absorbs. -/
def jsMul (x : JsNum) (n : ℚ) : JsNum :=
  x.map (· * n)

/-! ## The view-count normalizer

The body of the extraction callback, lines 78–89 of the route:

```
const viewsMatch = viewsText.match(/^([\d,.]+[KMB]?)\s*views?$/i);
let views = 0;
if (viewsMatch) {
  const viewString = viewsMatch[1].toUpperCase().replace(/,/g, "");
  if (viewString.endsWith("K")) views = parseFloat(viewString) * 1000;
  else if (viewString.endsWith("M")) views = parseFloat(viewString) * 1000000;
  else if (viewString.endsWith("B")) views = parseFloat(viewString) * 1000000000;
  else views = parseInt(viewString);
}
```

`viewString.endsWith("K")` is modelled as "the last character is `'K'`",
which agrees with `String.prototype.endsWith` for one-character suffixes.
-/

/-- `s.toUpperCase().replace(/,/g, "")` on the characters of `s`. -/
def upperNoCommas (l : List Char) : List Char :=
  (l.map Char.toUpper).filter (fun c => c ≠ ',')

/-- `endsWith` for a one-character suffix: the last character is `c`. -/
def lastIs (l : List Char) (c : Char) : Bool :=
  l.getLast? = some c

/-- The view-count normalizer: raw views text → `views` value. -/
def normalize (viewsText : String) : JsNum :=
  match viewsMatchList viewsText.data with
  | none => some 0
  | some g =>
    let viewString := upperNoCommas g
    if lastIs viewString 'K' then jsMul (jsParseFloat viewString) 1000
    else if lastIs viewString 'M' then jsMul (jsParseFloat viewString) 1000000
    else if lastIs viewString 'B' then jsMul (jsParseFloat viewString) 1000000000
    else jsParseInt viewString

/-! ## The field extractor

The `page.$$eval("#contents ytd-playlist-video-renderer", ...)` callback,
lines 67–95.  One matched DOM container is modelled by the three
sub-fields the callback reads; `none` models an absent sub-element
(`querySelector` returning `null`, so the optional chain yields
`undefined` and `|| ""` substitutes the empty string). -/

/-- One matched `ytd-playlist-video-renderer` container. -/
structure PlaylistElement where
  titleText : Option String
  videoInfoText : Option String
  imgSrc : Option String
deriving DecidableEq

/-- A normalized video record (`VideoData` in the source). -/
structure VideoData where
  title : String
  views : JsNum
  thumbnail : String
deriving DecidableEq

/-- `String.prototype.trim` (the ASCII whitespace part). -/
def jsTrim (s : String) : String :=
  (((s.data.dropWhile isJsSpace).reverse.dropWhile isJsSpace).reverse).asString

/-- The per-container body of the `$$eval` callback. -/
def extractVideo (el : PlaylistElement) : VideoData :=
  let title := (el.titleText.map jsTrim).getD ""
  let viewsText := (el.videoInfoText.map jsTrim).getD ""
  let thumbnail := el.imgSrc.getD ""
  { title := title, views := normalize viewsText, thumbnail := thumbnail }

/-- `elements.map(el => ...)` : the whole extraction callback. -/
def extractAll (els : List PlaylistElement) : List VideoData :=
  els.map extractVideo

/-! ## Graph data

Lines 120–123:
```
const graphData = videos.map((video, index) => ({
  name: `Video ${index + 1}`,
  views: video.views,
}));
```
-/

/-- One point of the response chart. -/
structure GraphPoint where
  name : String
  views : JsNum
deriving DecidableEq

/-- `videos.map((video, index) => ...)` with the running index made
explicit, exactly as the JS iteration order produces it. -/
def graphPointsFrom : List VideoData → ℕ → List GraphPoint
  | [], _ => []
  | v :: rest, i =>
    { name := "Video " ++ toString (i + 1), views := v.views } :: graphPointsFrom rest (i + 1)

/-- The `graphData` array of the response. -/
def graphData (videos : List VideoData) : List GraphPoint :=
  graphPointsFrom videos 0

/-! ## Dataset read-back and response assembly

Lines 116–129.  A dataset item is the object pushed by the request
handler, `{ videos }`. -/

/-- One committed dataset item. -/
structure Batch where
  videos : List VideoData
deriving DecidableEq

/-- The response payload (`PlaylistData` in the source). -/
structure PlaylistData where
  videoList : List VideoData
  graphData : List GraphPoint
deriving DecidableEq

/-- Lines 117–129: `(results.items[0]?.videos) || []` followed by the
`graphData` map and the `playlistData` literal. -/
def assemble (items : List Batch) : PlaylistData :=
  let videos := (items.head?.map Batch.videos).getD []
  { videoList := videos, graphData := graphData videos }

/-! ## URL validation

Line 30: `new URL(playlistUrl).searchParams.get("list")`.  The WHATWG
`URL` constructor throws when the input has no scheme (`scheme ":"` is
required); `searchParams.get` returns the value of the first
`name=value` pair of the query whose name matches, or `null`.  The
inputs in scope contain no percent-escapes, so decoding is the
identity and is not modelled. -/

/-- A character allowed inside a URL scheme after the first letter. -/
def isSchemeChar (c : Char) : Bool :=
  c.isAlpha || c.isDigit || c = '+' || c = '-' || c = '.'

/-- The WHATWG URL constructor succeeds: an ASCII-letter-initial scheme
followed by `':'`. -/
def hasValidScheme (l : List Char) : Bool :=
  match l with
  | c :: r => c.isAlpha && (r.dropWhile isSchemeChar).head? = some ':'
  | [] => false

/-- The query component: what stands between the first `'?'` and the
following `'#'` (empty when there is no `'?'`). -/
def queryOf (l : List Char) : List Char :=
  match l.dropWhile (fun c => c ≠ '?') with
  | _ :: r => r.takeWhile (fun c => c ≠ '#')
  | [] => []

/-- `searchParams.get(key)` : first `name=value` pair with that name
(empty `&&` segments are skipped, a pair without `'='` has value `""`). -/
def searchParamsGet (l : List Char) (key : List Char) : Option (List Char) :=
  let pieces := (queryOf l).splitOn '&'
  let pairs := pieces.filter (fun p => ¬ p.isEmpty)
  (pairs.find? (fun p => p.takeWhile (fun c => c ≠ '=') = key)).map
    (fun p => (p.dropWhile (fun c => c ≠ '=')).drop 1)

/-- `new URL(url).searchParams.get("list")` : `.error ()` models the
`TypeError` thrown by the constructor on an unparseable URL. -/
def urlListParam (url : String) : Except Unit (Option String) :=
  if hasValidScheme url.data then
    Except.ok ((searchParamsGet url.data "list".data).map List.asString)
  else Except.error ()

/-! ## The crawl and the POST handler

The crawler collaborator (`PlaywrightCrawler` from crawlee) is modelled
by its documented contract: an error thrown inside `requestHandler`
(selector-wait timeout, navigation failure, in-page script error) makes
the crawler retry the request and, once retries are exhausted, invoke
`failedRequestHandler`; the `crawler.run` promise still RESOLVES in that
case.  It rejects only when the crawler machinery itself fails
(infrastructure).  A handler attempt that runs to completion pushes
exactly one `{ videos }` item to the dataset (line 100). -/

/-- Why every attempt of the request handler failed. -/
inductive CrawlError
  | selectorTimeout
  | navigationFailure
  | scriptError
deriving DecidableEq

/-- Outcome of the request handler across the crawler's attempts. -/
inductive HandlerResult
  | committed (videos : List VideoData)
  | failed (e : CrawlError)
deriving DecidableEq

/-- The behaviour of the collaborators during one `POST` run. -/
structure CrawlEnv where
  openThrows : Bool
  handler : HandlerResult
  runThrows : Bool
  getDataThrows : Bool
deriving DecidableEq

/-- Observable session-store and crawler events of one run. -/
inductive Ev
  | openDataset
  | pushData (b : Batch)
  | failedRequestHandlerRan
  | dropDataset
deriving DecidableEq

/-- The HTTP outcome: a JSON response, or an exception escaping `POST`
uncaught (surfaced by the framework, not by the route's own code). -/
inductive Response
  | ok (data : PlaylistData)
  | badRequest (msg : String)
  | serverError (msg : String)
  | thrown
deriving DecidableEq

/-- JS falsiness of `playlistUrl` / of `searchParams.get` results:
`undefined`/`null` or the empty string. -/
def isFalsyStr : Option String → Bool
  | none => true
  | some s => s = ""

/-- `crawler.run([...])` : the events it emits, the dataset items it
commits, and whether its promise rejected. -/
def runCrawler (env : CrawlEnv) : List Ev × List Batch × Bool :=
  if env.runThrows then ([], [], true)
  else
    match env.handler with
    | .committed videos => ([.pushData ⟨videos⟩], [⟨videos⟩], false)
    | .failed _ => ([.failedRequestHandlerRan], [], false)

/-- The error message of the catch block (lines 141–144). -/
def scrapeErrorMsg : String := "An error occurred while scraping the playlist"

/-- The `POST` handler, lines 17–146: validation, dataset open, the
`try` block (crawl, read-back, assembly, drop, 200) and the `catch`
block (drop, 500).  Returns the response and the event trace. -/
def POST (playlistUrl : Option String) (env : CrawlEnv) : Response × List Ev :=
  if isFalsyStr playlistUrl then (.badRequest "Playlist URL is required", [])
  else
    match urlListParam (playlistUrl.getD "") with
    | .error _ => (.thrown, [])
    | .ok listParam =>
      if isFalsyStr listParam then (.badRequest "Invalid playlist URL", [])
      else if env.openThrows then (.thrown, [])
      else
        let r := runCrawler env
        let evs := Ev.openDataset :: r.1
        if r.2.2 then (.serverError scrapeErrorMsg, evs ++ [.dropDataset])
        else if env.getDataThrows then (.serverError scrapeErrorMsg, evs ++ [.dropDataset])
        else (.ok (assemble r.2.1), evs ++ [.dropDataset])

/-! ## The scroll-until-stable loop

Lines 57–64, the `page.evaluate` body:
```
while (true) {
  const oldHeight = document.body.scrollHeight;
  window.scrollTo(0, document.body.scrollHeight);
  await new Promise((resolve) => setTimeout(resolve, 2000));
  if (document.body.scrollHeight === oldHeight) break;
}
```
The page is modelled by the sequence `h : ℕ → ℕ` of heights it reports:
`h k` is `document.body.scrollHeight` as read after `k` scroll-and-wait
rounds (the value cannot change between the comparison at the end of one
iteration and the read at the start of the next, so both are `h (k+1)`).
The unbounded `while (true)` is embedded with explicit fuel; the source
loop terminates within some fuel bound iff the fuelled model returns
`some` stop index for some fuel. -/

/-- The page actions of the loop body. -/
inductive ScrollEvent
  | measure (height : ℕ)
  | scrollToBottom
  | pause (ms : ℕ)
deriving DecidableEq

/-- The action trace of one iteration of the loop body starting at
measurement `k`: read `oldHeight`, scroll to the bottom, wait 2000 ms,
re-read the height for the comparison. -/
def iterBlock (h : ℕ → ℕ) (k : ℕ) : List ScrollEvent :=
  [.measure (h k), .scrollToBottom, .pause 2000, .measure (h (k + 1))]

/-- The `while (true)` loop with fuel, started at measurement index `k`:
returns the emitted trace and, when it stopped within the fuel, the index
of the iteration whose comparison succeeded. -/
def scrollLoop (h : ℕ → ℕ) : ℕ → ℕ → List ScrollEvent × Option ℕ
  | _, 0 => ([], none)
  | k, fuel + 1 =>
    if h (k + 1) = h k then (iterBlock h k, some k)
    else
      let r := scrollLoop h (k + 1) fuel
      (iterBlock h k ++ r.1, r.2)

/-- The expected trace of the loop when it runs iterations `k, …, m`. -/
def traceFrom (h : ℕ → ℕ) (k m : ℕ) : List ScrollEvent :=
  ((List.range (m + 1 - k)).map (fun j => iterBlock h (k + j))).flatten

/-! ## Sample inputs used by witnesses and counterexamples -/

/-- A collaborator behaviour where the only request fails its selector
wait on every attempt and nothing else goes wrong. -/
def sampleEnv : CrawlEnv :=
  { openThrows := false, handler := .failed .selectorTimeout,
    runThrows := false, getDataThrows := false }

/-- A well-formed playlist URL. -/
def sampleUrl : String := "https://www.youtube.com/playlist?list=PL123"

/-- A page whose reported height grows for two scrolls, then stabilizes. -/
def sampleHeights : ℕ → ℕ := fun n => min n 2

/-! # Theorems -/

/-! ## Evaluation lemmas for the normalizer

Each lemma first reduces the scanner and the branch tests definitionally
(`rfl`, pure character/list computation) and then settles the remaining
rational arithmetic with `norm_num`. -/

/-- `"1,234 views"`: comma stripped, no suffix, `parseInt` path. -/
lemma normalize_comma_eval : normalize "1,234 views" = some 1234 := by
  have h : ((1234 : ℕ) : ℚ) = 1234 := by norm_num
  calc normalize "1,234 views" = some ((1234 : ℕ) : ℚ) := rfl
  _ = some 1234 := by rw [h]

/-- `"1.5M views"`: decimal with the `M` suffix. -/
lemma normalize_m_eval : normalize "1.5M views" = some 1500000 := by
  have h : (((1 : ℕ) : ℚ) + ((5 : ℕ) : ℚ) / (10 : ℚ) ^ (1 : ℕ)) * 1000000 = 1500000 := by
    norm_num
  calc normalize "1.5M views"
      = some ((((1 : ℕ) : ℚ) + ((5 : ℕ) : ℚ) / (10 : ℚ) ^ (1 : ℕ)) * 1000000) := rfl
  _ = some 1500000 := by rw [h]

/-- `"200K views"`: integer with the `K` suffix. -/
lemma normalize_k_eval : normalize "200K views" = some 200000 := by
  have h : (((200 : ℕ) : ℚ)) * 1000 = 200000 := by norm_num
  calc normalize "200K views" = some (((200 : ℕ) : ℚ) * 1000) := rfl
  _ = some 200000 := by rw [h]

/-- `"3 VIEWS"`: the `i` flag matches the upper-case word. -/
lemma normalize_upper_eval : normalize "3 VIEWS" = some 3 := by
  have h : ((3 : ℕ) : ℚ) = 3 := by norm_num
  calc normalize "3 VIEWS" = some ((3 : ℕ) : ℚ) := rfl
  _ = some 3 := by rw [h]

/-- `"10 views"`: plain positive count. -/
lemma normalize_ten_eval : normalize "10 views" = some 10 := by
  have h : ((10 : ℕ) : ℚ) = 10 := by norm_num
  calc normalize "10 views" = some ((10 : ℕ) : ℚ) := rfl
  _ = some 10 := by rw [h]

/-- A decimal with a suffix whose product is not a whole number. -/
lemma normalize_frac_eval : normalize "1.2345K views" = some (2469 / 2 : ℚ) := by
  have h : (((1 : ℕ) : ℚ) + ((2345 : ℕ) : ℚ) / (10 : ℚ) ^ (4 : ℕ)) * 1000 = 2469 / 2 := by
    norm_num
  calc normalize "1.2345K views"
      = some ((((1 : ℕ) : ℚ) + ((2345 : ℕ) : ℚ) / (10 : ℚ) ^ (4 : ℕ)) * 1000) := rfl
  _ = some (2469 / 2 : ℚ) := by rw [h]

/-- Any string the pattern rejects normalizes to `0`. -/
lemma normalize_of_no_match (s : String) (h : viewsMatch s = none) :
    normalize s = some 0 := by
  unfold viewsMatch at h
  cases hm : viewsMatchList s.data with
  | none => simp [normalize, hm]
  | some g => rw [hm] at h; simp at h

/-- C1: the view-count normalizer sends `"1,234 views"` to `1234`,
`"1.5M views"` to `1500000`, `"200K views"` to `200000`, `"3 VIEWS"` to
`3` (case-insensitively), and every input the pattern rejects — among
them `"no data"` and `""` — to `0`, without failing. -/
theorem normalizer_examples_and_fallback :
    normalize "1,234 views" = some 1234 ∧
    normalize "1.5M views" = some 1500000 ∧
    normalize "200K views" = some 200000 ∧
    normalize "3 VIEWS" = some 3 ∧
    normalize "no data" = some 0 ∧
    normalize "" = some 0 ∧
    ∀ s, viewsMatch s = none → normalize s = some 0 :=
  ⟨normalize_comma_eval, normalize_m_eval, normalize_k_eval, normalize_upper_eval,
    by decide, by decide, normalize_of_no_match⟩

/-- Witness for C1: `"no data"` is rejected by the pattern and
normalizes to `0` by the fallback clause. -/
theorem normalizer_examples_and_fallback_witness :
    viewsMatch "no data" = none ∧ normalize "no data" = some 0 :=
  ⟨by decide, normalizer_examples_and_fallback.2.2.2.2.2.2 "no data" (by decide)⟩

/-! ## Non-negativity of the normalizer (C2) -/

/-- `parseInt` never returns a negative number here. -/
lemma jsParseInt_nonneg (l : List Char) (q : ℚ) (h : jsParseInt l = some q) :
    0 ≤ q := by
  simp only [jsParseInt] at h
  split_ifs at h
  obtain rfl : ((digitsToNat (l.takeWhile Char.isDigit) : ℚ)) = q := by
    exact Option.some.inj h
  positivity

/-- `parseFloat` never returns a negative number here. -/
lemma jsParseFloat_nonneg (l : List Char) (q : ℚ) (h : jsParseFloat l = some q) :
    0 ≤ q := by
  simp only [jsParseFloat] at h
  split at h
  · split_ifs at h
    obtain rfl := Option.some.inj h
    positivity
  · split_ifs at h
    obtain rfl := Option.some.inj h
    positivity

/-- Whatever value `normalize` produces (when it is a number at all) is
non-negative. -/
lemma normalize_nonneg (s : String) (q : ℚ) (h : normalize s = some q) :
    0 ≤ q := by
  unfold normalize at h
  cases hm : viewsMatchList s.data with
  | none => rw [hm] at h; obtain rfl := Option.some.inj h; norm_num
  | some g =>
    rw [hm] at h
    simp only at h
    split_ifs at h
    case _ =>
      rcases hf : jsParseFloat (upperNoCommas g) with _ | x <;> rw [hf] at h
      · simp [jsMul] at h
      · simp only [jsMul, Option.map_some] at h
        obtain rfl := Option.some.inj h
        exact mul_nonneg (jsParseFloat_nonneg _ _ hf) (by norm_num)
    case _ =>
      rcases hf : jsParseFloat (upperNoCommas g) with _ | x <;> rw [hf] at h
      · simp [jsMul] at h
      · simp only [jsMul, Option.map_some] at h
        obtain rfl := Option.some.inj h
        exact mul_nonneg (jsParseFloat_nonneg _ _ hf) (by norm_num)
    case _ =>
      rcases hf : jsParseFloat (upperNoCommas g) with _ | x <;> rw [hf] at h
      · simp [jsMul] at h
      · simp only [jsMul, Option.map_some] at h
        obtain rfl := Option.some.inj h
        exact mul_nonneg (jsParseFloat_nonneg _ _ hf) (by norm_num)
    case _ => exact jsParseInt_nonneg _ _ h

/-- C2 as stated is false: on `"1.2345K views"` the suffix branch
multiplies `1.2345` by `1000` and performs no truncation, so the `views`
value is `1234.5`, not an integer. -/
theorem normalizer_integrality_counterexample :
    ¬ ∃ n : ℕ, normalize "1.2345K views" = some (n : ℚ) := by
  rintro ⟨n, hn⟩
  rw [normalize_frac_eval] at hn
  have h2 : (2469 / 2 : ℚ) = (n : ℚ) := Option.some.inj hn
  rw [div_eq_iff (by norm_num : (2 : ℚ) ≠ 0)] at h2
  have h4 : (2469 : ℕ) = n * 2 := by exact_mod_cast h2
  omega

/-- C2 (amended): every value the normalizer returns, and hence the
`views` field of every produced record, is a non-negative number
whenever it is a number at all; with a magnitude suffix the product is
not truncated, so it need not be an integer (and degenerate matches give
`NaN`). -/
theorem normalizer_nonneg (s : String) (q : ℚ) (el : PlaylistElement) (p : ℚ)
    (hs : normalize s = some q) (hp : (extractVideo el).views = some p) :
    0 ≤ q ∧ 0 ≤ p := by
  refine ⟨normalize_nonneg s q hs, ?_⟩
  have h2 : normalize ((el.videoInfoText.map jsTrim).getD "") = some p := hp
  exact normalize_nonneg _ _ h2

/-- Witness for C2 (amended): a container whose views text is
`"10 views"` gives a record with the non-negative value `10`. -/
theorem normalizer_nonneg_witness : (0 : ℚ) ≤ 10 ∧ (0 : ℚ) ≤ 10 :=
  normalizer_nonneg "10 views" 10 ⟨none, some "10 views", none⟩ 10
    normalize_ten_eval
    (by rw [show (extractVideo ⟨none, some "10 views", none⟩).views
            = normalize (jsTrim "10 views") from rfl,
          show jsTrim "10 views" = "10 views" from by decide]
        exact normalize_ten_eval)

/-! ## Graph data is position-labelled and order-preserving (C3) -/

/-- The index-carrying map produces one point per record. -/
lemma graphPointsFrom_length (l : List VideoData) (i : ℕ) :
    (graphPointsFrom l i).length = l.length := by
  induction l generalizing i with
  | nil => simp [graphPointsFrom]
  | cons v rest ih => simp [graphPointsFrom, ih]

/-- Pointwise description of the index-carrying map. -/
lemma graphPointsFrom_get (l : List VideoData) (i j : ℕ) (hj : j < l.length) :
    (graphPointsFrom l i).get ⟨j, (graphPointsFrom_length l i).symm ▸ hj⟩ =
      { name := "Video " ++ toString (i + j + 1), views := (l.get ⟨j, hj⟩).views } := by
  induction l generalizing i j with
  | nil => exact absurd hj (by simp)
  | cons v rest ih =>
    cases j with
    | zero => simp [graphPointsFrom]
    | succ j =>
      have hj2 : j < rest.length := by simpa using hj
      have := ih (i + 1) j hj2
      simp only [graphPointsFrom, List.get_cons_succ] at this ⊢
      rw [this]
      have harith : i + 1 + j + 1 = i + (j + 1) + 1 := by omega
      rw [harith]

/-- C3: `graphData` has the same length as the video list and, position
by position, carries the label `"Video " ++ (i+1)` (the source's `name`
field) and the `views` of the video at that position — a total,
order-preserving, one-to-one, position-based mapping. -/
theorem graph_data_order_preserving (videos : List VideoData) :
    (graphData videos).length = videos.length ∧
    ∀ i (hi : i < videos.length),
      ((graphData videos).get ⟨i, (graphPointsFrom_length videos 0).symm ▸ hi⟩).name
          = "Video " ++ toString (i + 1) ∧
      ((graphData videos).get ⟨i, (graphPointsFrom_length videos 0).symm ▸ hi⟩).views
          = (videos.get ⟨i, hi⟩).views := by
  refine ⟨graphPointsFrom_length videos 0, ?_⟩
  intro i hi
  have h := graphPointsFrom_get videos 0 i hi
  rw [show (0 : ℕ) + i + 1 = i + 1 from by omega] at h
  exact ⟨congrArg GraphPoint.name h, congrArg GraphPoint.views h⟩

/-- Witness for C3 on a two-element list. -/
theorem graph_data_order_preserving_witness :
    (graphData [⟨"a", some 5, "t"⟩, ⟨"b", some 7, "u"⟩]).length = 2 ∧
    ((graphData [⟨"a", some 5, "t"⟩, ⟨"b", some 7, "u"⟩]).get
        ⟨1, by decide⟩).name = "Video 2" ∧
    ((graphData [⟨"a", some 5, "t"⟩, ⟨"b", some 7, "u"⟩]).get
        ⟨1, by decide⟩).views = some 7 := by
  have h := graph_data_order_preserving [⟨"a", some 5, "t"⟩, ⟨"b", some 7, "u"⟩]
  have h1 := h.2 1 (by decide)
  refine ⟨h.1, ?_, ?_⟩
  · rw [h1.1]; decide
  · rw [h1.2]; decide

/-! ## The extractor is per-container, ordered and tolerant (C7) -/

/-- C7: extraction returns exactly one record per matched container, in
order, with no filtering; each output field is a function of its own
sub-field alone (absent sub-fields defaulting to `""`); and a container
with no title and no thumbnail but a positively-valued views text still
yields a record with that positive view count. -/
theorem extractor_per_container (els : List PlaylistElement) (s : String) (q : ℚ)
    (hs : normalize (jsTrim s) = some q) (hq : 0 < q) :
    ((extractAll els).length = els.length ∧
      ∀ i (hi : i < els.length),
        (extractAll els).get ⟨i, by simpa [extractAll] using hi⟩
          = extractVideo (els.get ⟨i, hi⟩)) ∧
    (∀ el : PlaylistElement,
      (extractVideo el).title = (el.titleText.map jsTrim).getD "" ∧
      (extractVideo el).views = normalize ((el.videoInfoText.map jsTrim).getD "") ∧
      (extractVideo el).thumbnail = el.imgSrc.getD "") ∧
    ((extractVideo ⟨none, some s, none⟩).title = "" ∧
      (extractVideo ⟨none, some s, none⟩).thumbnail = "" ∧
      (extractVideo ⟨none, some s, none⟩).views = some q ∧ 0 < q) := by
  refine ⟨⟨by simp [extractAll], ?_⟩, ?_, rfl, rfl, hs, hq⟩
  · intro i hi
    simp [extractAll]
  · intro el
    exact ⟨rfl, rfl, rfl⟩

/-- Witness for C7: a single container with title and thumbnail absent
and views text `"10 views"`. -/
theorem extractor_per_container_witness :
    ((extractAll [⟨none, some "10 views", none⟩]).length = 1 ∧
      (extractAll [⟨none, some "10 views", none⟩]).get ⟨0, by decide⟩
        = extractVideo ⟨none, some "10 views", none⟩) ∧
    ((extractVideo ⟨none, some "10 views", none⟩).title = "" ∧
      (extractVideo ⟨none, some "10 views", none⟩).thumbnail = "" ∧
      (extractVideo ⟨none, some "10 views", none⟩).views = some 10 ∧ (0 : ℚ) < 10) := by
  have hs : normalize (jsTrim "10 views") = some 10 := by
    rw [show jsTrim "10 views" = "10 views" from by decide]
    exact normalize_ten_eval
  have h := extractor_per_container [⟨none, some "10 views", none⟩] "10 views" 10 hs
    (by norm_num)
  exact ⟨⟨h.1.1, h.1.2 0 (by decide)⟩, h.2.2⟩

/-! ## Input validation (C4)

Missing and empty locators get the 400 "required" response, and a
URL-parseable locator without a usable `list` parameter gets the 400
"invalid" response, in both cases before any dataset is opened.  The
claim's further promise — that EVERY locator that "does not parse to a
valid playlist identifier" gets a 400 — fails: `new URL` is called
outside any try/catch, so a locator that is not a parseable URL at all
makes `POST` throw instead of answering 400. -/

/-- C4 as stated is false: on the unparseable locator `"notaurl"` the
route throws out of `new URL` (no JSON response at all, though still no
session), rather than returning either 400 response. -/
theorem validation_counterexample :
    POST (some "notaurl") sampleEnv = (.thrown, []) ∧
    Response.thrown ≠ .badRequest "Invalid playlist URL" ∧
    Response.thrown ≠ .badRequest "Playlist URL is required" := by
  refine ⟨?_, by simp, by simp⟩
  decide

/-- C4 (amended): a missing or empty locator yields
400 `"Playlist URL is required"`; a locator that parses as a URL but has
no (or an empty) `list` parameter yields 400 `"Invalid playlist URL"`; a
locator that does not parse as a URL throws.  In every one of these
cases no session is opened (the event trace is empty). -/
theorem validation_rejects (env : CrawlEnv) (url : String) (p : Option String)
    (hne : url ≠ "") (hp : urlListParam url = .ok p) (hfal : isFalsyStr p = true)
    (url2 : String) (hne2 : url2 ≠ "") (herr : urlListParam url2 = .error ()) :
    POST none env = (.badRequest "Playlist URL is required", []) ∧
    POST (some "") env = (.badRequest "Playlist URL is required", []) ∧
    POST (some url) env = (.badRequest "Invalid playlist URL", []) ∧
    POST (some url2) env = (.thrown, []) := by
  refine ⟨rfl, rfl, ?_, ?_⟩
  · have hfal2 : isFalsyStr (some url) = false := by simp [isFalsyStr, hne]
    simp [POST, hfal2, hp, hfal]
  · have hfal2 : isFalsyStr (some url2) = false := by simp [isFalsyStr, hne2]
    simp [POST, hfal2, herr]

/-- Witness for C4 (amended): the spec's own examples — no `list`
parameter on a valid URL, and an unparseable locator. -/
theorem validation_rejects_witness :
    POST none sampleEnv = (.badRequest "Playlist URL is required", []) ∧
    POST (some "") sampleEnv = (.badRequest "Playlist URL is required", []) ∧
    POST (some "https://example.com/watch?v=x") sampleEnv
      = (.badRequest "Invalid playlist URL", []) ∧
    POST (some "notaurl") sampleEnv = (.thrown, []) :=
  validation_rejects sampleEnv "https://example.com/watch?v=x" none
    (by decide) (by decide) (by decide) "notaurl" (by decide) (by decide)

/-! ## Session lifecycle (C5) -/

/-- C5: on every run — validation failure, URL throw, open failure,
crawl failure, read-back failure or success — the dataset is opened at
most once, and the number of `drop` events always equals the number of
`open` events: an opened session is disposed exactly once and no exit
path leaks one. -/
theorem session_open_drop_balance (playlistUrl : Option String) (env : CrawlEnv) :
    (POST playlistUrl env).2.count .dropDataset
        = (POST playlistUrl env).2.count .openDataset ∧
    (POST playlistUrl env).2.count .openDataset ≤ 1 := by
  obtain ⟨o, hd, rt, gd⟩ := env
  unfold POST runCrawler
  split_ifs <;> try simp_all
  all_goals (split <;> try simp_all)
  all_goals (split_ifs <;> cases hd <;> simp [List.count_cons, List.count_nil])

/-! ## Downstream-failure responses (C6)

The catch block answers 500 for every error thrown inside the `try`
(crawler infrastructure failure, dataset read-back failure).  But a
selector-wait timeout, navigation failure or in-page script error makes
crawlee retry the request and then call `failedRequestHandler`;
`crawler.run` resolves, so the route falls through to the read-back of
an empty dataset and answers 200 with empty lists — contradicting the
claim that such failures always surface as the 500 response. -/

/-- C6 as stated is false: with a run whose only request times out on
the selector wait, the route returns 200 with empty `videoList` and
`graphData`, not the 500 error. -/
theorem crawl_failure_counterexample :
    POST (some sampleUrl) sampleEnv
      = (.ok ⟨[], []⟩, [.openDataset, .failedRequestHandlerRan, .dropDataset]) ∧
    (POST (some sampleUrl) sampleEnv).1 ≠ .serverError scrapeErrorMsg := by
  constructor <;> decide

/-- C6 (amended): request-handler failures (selector-wait timeout,
navigation failure, in-page script error) are absorbed by the crawler —
`failedRequestHandler` runs, `crawler.run` resolves and the caller gets
200 with empty lists; the 500
`{ error: "An error occurred while scraping the playlist" }` is produced
exactly by errors thrown inside the `try` block (crawl-infrastructure or
read-back failures), and none of those produces a success response. -/
theorem crawl_failure_responses (url : String) (env : CrawlEnv) (p : String)
    (hp : urlListParam url = .ok (some p)) (hpne : p ≠ "") (hne : url ≠ "")
    (hopen : env.openThrows = false) :
    ((env.runThrows = true ∨ env.getDataThrows = true) →
      (POST (some url) env).1 = .serverError scrapeErrorMsg) ∧
    (∀ e, env.handler = .failed e → env.runThrows = false → env.getDataThrows = false →
      POST (some url) env
        = (.ok ⟨[], []⟩, [.openDataset, .failedRequestHandlerRan, .dropDataset])) := by
  have hfal2 : isFalsyStr (some url) = false := by simp [isFalsyStr, hne]
  have hfalp : isFalsyStr (some p) = false := by simp [isFalsyStr, hpne]
  constructor
  · rintro (hrun | hget)
    · simp [POST, hfal2, hp, hfalp, hopen, runCrawler, hrun]
    · cases hrun : env.runThrows <;>
        simp [POST, hfal2, hp, hfalp, hopen, runCrawler, hrun, hget]
  · intro e hh hrun hget
    simp [POST, hfal2, hp, hfalp, hopen, runCrawler, hrun, hget, hh, assemble,
      graphData, graphPointsFrom]

/-- Witness for C6 (amended): both branches at the sample URL — an
infrastructure failure of the run gives the 500, and a selector-wait
timeout gives the empty 200. -/
theorem crawl_failure_responses_witness :
    ((POST (some sampleUrl)
        { openThrows := false, handler := .failed .selectorTimeout,
          runThrows := true, getDataThrows := false }).1
      = .serverError scrapeErrorMsg) ∧
    POST (some sampleUrl) sampleEnv
      = (.ok ⟨[], []⟩, [.openDataset, .failedRequestHandlerRan, .dropDataset]) :=
  ⟨(crawl_failure_responses sampleUrl
      { openThrows := false, handler := .failed .selectorTimeout,
        runThrows := true, getDataThrows := false } "PL123"
      (by decide) (by decide) (by decide) rfl).1 (Or.inl rfl),
   (crawl_failure_responses sampleUrl sampleEnv "PL123"
      (by decide) (by decide) (by decide) rfl).2 .selectorTimeout rfl rfl rfl⟩

/-! ## Empty read-back yields an empty success (C9) -/

/-- C9: when the crawl resolves without any batch having been committed,
the read-back sees no items and the route answers 200 with empty
`videoList` and `graphData` — not an error response. -/
theorem empty_readback_success (url : String) (env : CrawlEnv) (p : String)
    (hp : urlListParam url = .ok (some p)) (hpne : p ≠ "") (hne : url ≠ "")
    (hopen : env.openThrows = false) (hrun : env.runThrows = false)
    (hget : env.getDataThrows = false) (hempty : (runCrawler env).2.1 = []) :
    assemble [] = ⟨[], []⟩ ∧ (POST (some url) env).1 = .ok ⟨[], []⟩ := by
  have hfal2 : isFalsyStr (some url) = false := by simp [isFalsyStr, hne]
  have hfalp : isFalsyStr (some p) = false := by simp [isFalsyStr, hpne]
  refine ⟨rfl, ?_⟩
  have hthrew : (runCrawler env).2.2 = false := by
    cases hh : env.handler <;> simp [runCrawler, hrun, hh]
  simp [POST, hfal2, hp, hfalp, hopen, hget, hthrew, hempty, assemble, graphData,
    graphPointsFrom]

/-- Witness for C9: a run whose only request fails commits nothing and
gets the empty 200. -/
theorem empty_readback_success_witness :
    assemble [] = ⟨[], []⟩ ∧ (POST (some sampleUrl) sampleEnv).1 = .ok ⟨[], []⟩ :=
  empty_readback_success sampleUrl sampleEnv "PL123"
    (by decide) (by decide) (by decide) rfl rfl rfl (by decide)

/-! ## Only the first batch matters (C10) -/

/-- C10: the response is assembled from `results.items[0]` alone — any
batches after the first neither change `videoList` nor `graphData`. -/
theorem first_batch_only (b : Batch) (rest rest2 : List Batch) :
    assemble (b :: rest) = assemble [b] ∧
    assemble (b :: rest) = assemble (b :: rest2) :=
  ⟨rfl, rfl⟩

/-! ## The scroll-until-stable loop (C8) -/

/-- A loop that stops at its first iteration ran exactly one block. -/
lemma traceFrom_self (h : ℕ → ℕ) (k : ℕ) : traceFrom h k k = iterBlock h k := by
  unfold traceFrom
  rw [show k + 1 - k = 1 from by omega]
  simp [List.range_succ]

/-- Peeling the first iteration off the expected trace. -/
lemma traceFrom_cons (h : ℕ → ℕ) (k m : ℕ) (hkm : k + 1 ≤ m) :
    traceFrom h k m = iterBlock h k ++ traceFrom h (k + 1) m := by
  unfold traceFrom
  rw [show m + 1 - k = (m + 1 - (k + 1)) + 1 from by omega, List.range_succ_eq_map]
  rw [List.map_cons, List.flatten_cons, List.map_map, Nat.add_zero]
  congr 1
  apply congrArg List.flatten
  apply List.map_congr_left
  intro a _
  show iterBlock h (k + (a + 1)) = iterBlock h (k + 1 + a)
  exact congrArg (iterBlock h) (by omega)

/-- Soundness of a stopped loop: the stop index is the first one whose
two consecutive measurements agree, and the trace consists of exactly
the iteration blocks up to it. -/
lemma scrollLoop_sound (h : ℕ → ℕ) :
    ∀ fuel k m, (scrollLoop h k fuel).2 = some m →
      k ≤ m ∧ h (m + 1) = h m ∧ (∀ j, k ≤ j → j < m → h (j + 1) ≠ h j) ∧
      (scrollLoop h k fuel).1 = traceFrom h k m := by
  intro fuel
  induction fuel with
  | zero => intro k m hm; simp [scrollLoop] at hm
  | succ fuel ih =>
    intro k m hm
    by_cases hk : h (k + 1) = h k
    · have hmk : k = m := by simpa [scrollLoop, hk] using hm
      subst hmk
      exact ⟨le_refl k, hk, fun j h1 h2 => absurd (lt_of_le_of_lt h1 h2) (lt_irrefl k),
        by simp [scrollLoop, hk, traceFrom_self]⟩
    · have hm2 : (scrollLoop h (k + 1) fuel).2 = some m := by
        simpa [scrollLoop, hk] using hm
      obtain ⟨hle, hstab, hfirst, htr⟩ := ih (k + 1) m hm2
      refine ⟨by omega, hstab, ?_, ?_⟩
      · intro j h1 h2
        rcases Nat.eq_or_lt_of_le h1 with rfl | hlt
        · exact hk
        · exact hfirst j hlt h2
      · have : (scrollLoop h k (fuel + 1)).1 = iterBlock h k ++ (scrollLoop h (k + 1) fuel).1 := by
          simp [scrollLoop, hk]
        rw [this, htr, traceFrom_cons h k m hle]

/-- Completeness: if some pair of consecutive measurements from `k`
onwards agrees, the loop stops once given enough fuel. -/
lemma scrollLoop_stops (h : ℕ → ℕ) :
    ∀ fuel k n, k ≤ n → n < k + fuel → h (n + 1) = h n →
      ∃ m, (scrollLoop h k fuel).2 = some m := by
  intro fuel
  induction fuel with
  | zero => intro k n h1 h2 _; omega
  | succ fuel ih =>
    intro k n h1 h2 hstab
    by_cases hk : h (k + 1) = h k
    · exact ⟨k, by simp [scrollLoop, hk]⟩
    · have hne : n ≠ k := by rintro rfl; exact hk hstab
      obtain ⟨m, hm⟩ := ih (k + 1) n (by omega) (by omega) hstab
      exact ⟨m, by simpa [scrollLoop, hk] using hm⟩

/-- C8: the loop measures, scrolls to the bottom, pauses 2000 ms and
re-measures each round (the trace is exactly those blocks); it stops
precisely at the first index where two consecutive measurements agree;
and, having no iteration cap, it terminates within some fuel bound if
and only if the height sequence eventually repeats once. -/
theorem scroll_until_stable (h : ℕ → ℕ) :
    ((∃ fuel m, (scrollLoop h 0 fuel).2 = some m) ↔ ∃ n, h (n + 1) = h n) ∧
    ∀ fuel m, (scrollLoop h 0 fuel).2 = some m →
      h (m + 1) = h m ∧ (∀ j, j < m → h (j + 1) ≠ h j) ∧
      (scrollLoop h 0 fuel).1 = traceFrom h 0 m := by
  constructor
  · constructor
    · rintro ⟨fuel, m, hm⟩
      obtain ⟨-, hstab, -, -⟩ := scrollLoop_sound h fuel 0 m hm
      exact ⟨m, hstab⟩
    · rintro ⟨n, hn⟩
      obtain ⟨m, hm⟩ := scrollLoop_stops h (n + 1) 0 n (by omega) (by omega) hn
      exact ⟨n + 1, m, hm⟩
  · intro fuel m hm
    obtain ⟨-, hstab, hfirst, htr⟩ := scrollLoop_sound h fuel 0 m hm
    exact ⟨hstab, fun j hj => hfirst j (by omega) hj, htr⟩

/-- Witness for C8: on a page whose height goes 0, 1, 2, 2, … the loop
stops after the third iteration (index 2), its first repeated
measurement, having paused 2000 ms in each round. -/
theorem scroll_until_stable_witness :
    (scrollLoop sampleHeights 0 5).2 = some 2 ∧
    sampleHeights 3 = sampleHeights 2 ∧
    sampleHeights 2 ≠ sampleHeights 1 ∧
    (scrollLoop sampleHeights 0 5).1 = traceFrom sampleHeights 0 2 := by
  have h := (scroll_until_stable sampleHeights).2 5 2 (by decide)
  exact ⟨by decide, h.1, h.2.1 1 (by omega), h.2.2⟩

end PlaylistAnalyzer
